import Mathlib

/-!
Shallow embedding of `src/challenge-1/agents/fault_diagnosis_agent.py`.

The script reads five environment variables at module load, builds a
`PromptAgentDefinition` with two `MCPTool` descriptors, submits it via
`project_client.agents.create_version`, and then runs one smoke-test
conversation.  All remote SDK calls are modelled as an oracle (`Behavior`)
that either returns a value or raises an exception carried as a message
string; `main` is the literal translation of the control flow of the
Python `main` coroutine, returning the ordered trace of network calls it
issued, the list of strings it printed, and its Python return value.
-/

/-- The five environment variables read at start-up via `os.environ.get`,
each an optional string (`None` when unset). -/
structure Env where
  projectEndpoint : Option String
  modelDeploymentName : Option String
  searchServiceEndpoint : Option String
  machineMcpServerEndpoint : Option String
  apimSubscriptionKey : Option String

deriving instance DecidableEq for Env

/-- Python f-string interpolation of an `Optional[str]`: `None` renders as
the text `"None"`. -/
def pyStr : Option String → String
  | none => "None"
  | some s => s

/-- `knowledge_base_name = 'machine-kb'` (module-level configuration). -/
def knowledge_base_name : String := "machine-kb"

/-- `machine_wiki_mcp_endpoint = f"{search_endpoint}knowledgebases/{knowledge_base_name}/mcp?api-version=2025-11-01-preview"`. -/
def machine_wiki_mcp_endpoint (env : Env) : String :=
  pyStr env.searchServiceEndpoint ++ "knowledgebases/" ++ knowledge_base_name
    ++ "/mcp?api-version=2025-11-01-preview"

/-- `machine_data_mcp_endpoint = os.environ.get("MACHINE_MCP_SERVER_ENDPOINT")`. -/
def machine_data_mcp_endpoint (env : Env) : Option String :=
  env.machineMcpServerEndpoint

/-- A tool descriptor as passed to `MCPTool(...)`.  `server_url` is an
optional string because the machine-data URL comes straight from
`os.environ.get` and may be `None`. -/
structure MCPTool where
  server_label : String
  server_url : Option String
  require_approval : String
  project_connection_id : String

deriving instance DecidableEq for MCPTool

/-- The declarative agent definition passed to `PromptAgentDefinition(...)`. -/
structure PromptAgentDefinition where
  model : String
  instructions : String
  tools : List MCPTool

deriving instance DecidableEq for PromptAgentDefinition

/-- The keyword arguments of `project_client.agents.create_version(...)`. -/
structure CreateVersionArgs where
  agent_name : String
  description : String
  definition : PromptAgentDefinition

deriving instance DecidableEq for CreateVersionArgs

/-- The agent object returned by the remote create-version call; the script
only ever reads its `id` and `name` attributes. -/
structure Agent where
  id : String
  name : String

deriving instance DecidableEq for Agent

/-- The conversation object; the script only reads its `id`. -/
structure Conversation where
  id : String

deriving instance DecidableEq for Conversation

/-- The response object; the script only reads its `output_text`. -/
structure Response where
  output_text : String

deriving instance DecidableEq for Response

/-- The instruction prompt passed to `PromptAgentDefinition` (verbatim from
the source; literal braces are written with hex escapes). -/
def agent_instructions : String :=
  "You are a Fault Diagnosis Agent evaluating the root cause of maintenance alerts.\n\nYou will receive detected sensor deviations for a given machine. Your task is to determine the most likely root cause using ONLY the provided tools.\n\nTools available:\n- MCP Knowledge Base: fetch knowledge base information for possible causes\n- Machine data: fetch machine information such as maintenance history and type for a particular machine id\n\nOutput format (STRICT):\n- You must output exactly ONE valid JSON object and nothing else (no Markdown, no prose).\n- The JSON object MUST match this schema (property names are case-sensitive):\n    \x7b\n        \"MachineId\": string,\n        \"FaultType\": string,\n        \"RootCause\": string,\n        \"Severity\": string,\n        \"DetectedAt\": string,  // ISO 8601 date-time, e.g. \"2026-01-16T12:34:56Z\"\n        \"Metadata\": \x7b string: any \x7d\n    \x7d\n\nField rules:\n- MachineId: the machine identifier from the input (e.g. \"machine-001\").\n- FaultType: MUST be taken from the wiki/knowledge base \"Fault Type\" field for the matched issue (copy it exactly, e.g. \"mixing_temperature_excessive\"). Do not invent new fault types.\n- RootCause: the single most likely root cause supported by the knowledge base and/or machine data.\n- Severity: one of \"Low\", \"Medium\", \"High\", \"Critical\", or \"Unknown\".\n- DetectedAt: if the input includes a timestamp, use it; otherwise use the current UTC time.\n- Metadata: include supporting details used for the decision (e.g. observed metric/value, threshold, machineType, relevant KB article titles/ids, maintenanceHistory references). Do not include secrets/keys.\n    - Metadata MUST include a key \"MostLikelyRootCauses\" whose value is an array of strings taken from the wiki/knowledge base \"Likely Causes\" list for the matched fault type (preserve the items; ordering can follow the wiki).\n\nGrounding rules (IMPORTANT):\n- You must never answer from your own knowledge under any circumstances.\n- If you cannot find the answer in the provided knowledge base and machine data, you MUST set \"RootCause\" to \"I don\x27t know\" and set \"FaultType\" and \"Severity\" to \"Unknown\". In this case, set \"Metadata\" to \x7b\"MostLikelyRootCauses\": []\x7d.\n"

/-- The smoke-test message passed as `input=` to `responses.create`
(a triple-quoted Python string including its indentation). -/
def testInput : String :=
  "\n                    Hello, what can the issue be when machine-001 has curing temperature reading of 179.2°C that exceeds warning threshold of 178°C?\n                "

/-- The `PromptAgentDefinition(...)` constructed inside `create_version`:
a hard-coded model literal, the instruction prompt, and the two
`MCPTool` descriptors in source order (machine-data, then machine-wiki). -/
def agentDefinition (env : Env) : PromptAgentDefinition :=
  { model := "gpt-4.1"
    instructions := agent_instructions
    tools :=
      [ { server_label := "machine-data"
          server_url := machine_data_mcp_endpoint env
          require_approval := "never"
          project_connection_id := "machine-data-connection" },
        { server_label := "machine-wiki"
          server_url := some (machine_wiki_mcp_endpoint env)
          require_approval := "never"
          project_connection_id := "machine-wiki-connection" } ] }

/-- The full keyword-argument record of the `create_version` call. -/
def agentArgs (env : Env) : CreateVersionArgs :=
  { agent_name := "FaultDiagnosisAgent"
    description := "Fault diagnosis agent"
    definition := agentDefinition env }

/-- One network call issued by the script, recorded at the moment the call
is made (whether or not it then raises). -/
inductive Event where
  | createAgent (args : CreateVersionArgs)
  | createConversation
  | sendMessage (conversationId : String) (input : String) (agentName : String)

deriving instance DecidableEq for Event

/-- `true` exactly on `createAgent` events. -/
def Event.isCreateAgent : Event → Bool
  | .createAgent _ => true
  | _ => false

/-- `true` exactly on `createConversation` events. -/
def Event.isCreateConversation : Event → Bool
  | .createConversation => true
  | _ => false

/-- `true` exactly on `sendMessage` events. -/
def Event.isSendMessage : Event → Bool
  | .sendMessage _ _ _ => true
  | _ => false

/-- The oracle for the remote SDK: each call site either returns a value
(`Except.ok`) or raises an exception rendered as its message string
(`Except.error`).  `clientInit` stands for `AIProjectClient(endpoint=...,
credential=DefaultAzureCredential())`, `getOpenAIClient` for
`project_client.get_openai_client()`. -/
structure Behavior where
  clientInit : Option String → Except String Unit
  createVersion : CreateVersionArgs → Except String Agent
  getOpenAIClient : Except String Unit
  conversationsCreate : Except String Conversation
  responsesCreate : String → String → String → Except String Response

/-- `print(f"✅ Created Fault Diagnosis Agent: {agent.id}")`. -/
def created_line (agentId : String) : String :=
  "✅ Created Fault Diagnosis Agent: " ++ agentId

/-- `print("\n🧪 Testing the agent with a sample query...")`. -/
def test_banner : String :=
  "\n🧪 Testing the agent with a sample query..."

/-- `print(f"✅ Agent response: {response.output_text}")`. -/
def response_line (text : String) : String :=
  "✅ Agent response: " ++ text

/-- The inner `except` clause:
`print(f"⚠️  Agent test failed (but agent was still created): {test_error}")`. -/
def test_fail_line (msg : String) : String :=
  "⚠️  Agent test failed (but agent was still created): " ++ msg

/-- The first line of the outer `except` clause:
`print(f"❌ Error creating agent: {e}")`. -/
def error_line (msg : String) : String :=
  "❌ Error creating agent: " ++ msg

/-- The second line of the outer `except` clause. -/
def az_login_hint : String :=
  "Make sure you have run \x27az login\x27 and have proper Azure credentials configured."

/-- The observable outcome of one run of `main`: which network calls were
issued and in what order, every string printed to standard output, and the
Python return value (`some agent` or `none`). -/
structure RunResult where
  trace : List Event
  output : List String
  ret : Option Agent

deriving instance DecidableEq for RunResult

namespace Script

/-- Literal translation of the `async def main()` coroutine.  The outer
`try` wraps client construction, agent creation and the smoke test; its
`except` prints two lines and returns `None`.  The inner `try` wraps the
smoke test only; its `except` prints one warning and falls through to
`return agent`. -/
def main (env : Env) (b : Behavior) : RunResult :=
  match b.clientInit env.projectEndpoint with
  | .error e => { trace := [], output := [error_line e, az_login_hint], ret := none }
  | .ok _ =>
    match b.createVersion (agentArgs env) with
    | .error e =>
        { trace := [.createAgent (agentArgs env)]
          output := [error_line e, az_login_hint]
          ret := none }
    | .ok agent =>
      match b.getOpenAIClient with
      | .error te =>
          { trace := [.createAgent (agentArgs env)]
            output := [created_line agent.id, test_banner, test_fail_line te]
            ret := some agent }
      | .ok _ =>
        match b.conversationsCreate with
        | .error te =>
            { trace := [.createAgent (agentArgs env), .createConversation]
              output := [created_line agent.id, test_banner, test_fail_line te]
              ret := some agent }
        | .ok conversation =>
          match b.responsesCreate conversation.id testInput agent.name with
          | .error te =>
              { trace := [.createAgent (agentArgs env), .createConversation,
                          .sendMessage conversation.id testInput agent.name]
                output := [created_line agent.id, test_banner, test_fail_line te]
                ret := some agent }
          | .ok response =>
              { trace := [.createAgent (agentArgs env), .createConversation,
                          .sendMessage conversation.id testInput agent.name]
                output := [created_line agent.id, test_banner,
                           response_line response.output_text]
                ret := some agent }

end Script

/-! ### Concrete fixtures used by witnesses and counterexamples -/

/-- A concrete agent object as the remote call could return it. -/
def agent0 : Agent := { id := "agent-123", name := "FaultDiagnosisAgent" }

/-- A concrete conversation object. -/
def conv0 : Conversation := { id := "conv-1" }

/-- A concrete response object. -/
def resp0 : Response := { output_text := "diagnosis-json" }

/-- A fully populated environment. -/
def env0 : Env :=
  { projectEndpoint := some "https://proj.example/"
    modelDeploymentName := some "my-deployment"
    searchServiceEndpoint := some "https://search.example/"
    machineMcpServerEndpoint := some "https://mcp.example/"
    apimSubscriptionKey := some "key-a" }

/-- `env0` with the search-service endpoint unset. -/
def envNoSearch : Env := { env0 with searchServiceEndpoint := none }

/-- `env0` with a different APIM subscription key. -/
def envKeyB : Env := { env0 with apimSubscriptionKey := some "key-b" }

/-- A behavior in which every remote call succeeds. -/
def bOk : Behavior :=
  { clientInit := fun _ => .ok ()
    createVersion := fun _ => .ok agent0
    getOpenAIClient := .ok ()
    conversationsCreate := .ok conv0
    responsesCreate := fun _ _ _ => .ok resp0 }

/-- A behavior in which the conversation-creation call raises. -/
def bConvFail : Behavior := { bOk with conversationsCreate := .error "boom" }

/-- A behavior in which the create-agent call raises. -/
def bCreateFail : Behavior := { bOk with createVersion := fun _ => .error "denied" }

/-- A behavior in which the send-message call raises. -/
def bRespFail : Behavior := { bOk with responsesCreate := fun _ _ _ => .error "timeout" }

/-! ### Shape lemmas: one equation for each control-flow path of `main` -/

/-- If client construction raises, `main` prints the two outer-handler lines
and returns `None` with no network call issued. -/
theorem main_clientInit_error (env : Env) (b : Behavior) (e : String)
    (h : b.clientInit env.projectEndpoint = .error e) :
    Script.main env b =
      { trace := [], output := [error_line e, az_login_hint], ret := none } := by
  unfold Script.main
  rw [h]

/-- If agent creation raises, `main` prints the two outer-handler lines and
returns `None`; only the create-agent call was issued. -/
theorem main_createVersion_error (env : Env) (b : Behavior) (e : String)
    (hci : b.clientInit env.projectEndpoint = .ok ())
    (h : b.createVersion (agentArgs env) = .error e) :
    Script.main env b =
      { trace := [.createAgent (agentArgs env)]
        output := [error_line e, az_login_hint]
        ret := none } := by
  unfold Script.main
  rw [hci, h]

/-- If fetching the OpenAI client raises, the inner handler prints the
warning and `main` still returns the agent. -/
theorem main_getClient_error (env : Env) (b : Behavior) (ag : Agent) (te : String)
    (hci : b.clientInit env.projectEndpoint = .ok ())
    (hcv : b.createVersion (agentArgs env) = .ok ag)
    (hg : b.getOpenAIClient = .error te) :
    Script.main env b =
      { trace := [.createAgent (agentArgs env)]
        output := [created_line ag.id, test_banner, test_fail_line te]
        ret := some ag } := by
  unfold Script.main
  rw [hci, hcv, hg]

/-- If conversation creation raises, the inner handler prints the warning
and `main` still returns the agent. -/
theorem main_conversation_error (env : Env) (b : Behavior) (ag : Agent) (te : String)
    (hci : b.clientInit env.projectEndpoint = .ok ())
    (hcv : b.createVersion (agentArgs env) = .ok ag)
    (hg : b.getOpenAIClient = .ok ())
    (hc : b.conversationsCreate = .error te) :
    Script.main env b =
      { trace := [.createAgent (agentArgs env), .createConversation]
        output := [created_line ag.id, test_banner, test_fail_line te]
        ret := some ag } := by
  unfold Script.main
  rw [hci, hcv, hg, hc]

/-- If the message-send call raises, the inner handler prints the warning
and `main` still returns the agent. -/
theorem main_response_error (env : Env) (b : Behavior) (ag : Agent)
    (c : Conversation) (te : String)
    (hci : b.clientInit env.projectEndpoint = .ok ())
    (hcv : b.createVersion (agentArgs env) = .ok ag)
    (hg : b.getOpenAIClient = .ok ())
    (hc : b.conversationsCreate = .ok c)
    (hr : b.responsesCreate c.id testInput ag.name = .error te) :
    Script.main env b =
      { trace := [.createAgent (agentArgs env), .createConversation,
                  .sendMessage c.id testInput ag.name]
        output := [created_line ag.id, test_banner, test_fail_line te]
        ret := some ag } := by
  unfold Script.main
  simp only [hci, hcv, hg, hc, hr]

/-- The all-success path: three network calls, three printed lines, and the
agent returned. -/
theorem main_success (env : Env) (b : Behavior) (ag : Agent)
    (c : Conversation) (r : Response)
    (hci : b.clientInit env.projectEndpoint = .ok ())
    (hcv : b.createVersion (agentArgs env) = .ok ag)
    (hg : b.getOpenAIClient = .ok ())
    (hc : b.conversationsCreate = .ok c)
    (hr : b.responsesCreate c.id testInput ag.name = .ok r) :
    Script.main env b =
      { trace := [.createAgent (agentArgs env), .createConversation,
                  .sendMessage c.id testInput ag.name]
        output := [created_line ag.id, test_banner, response_line r.output_text]
        ret := some ag } := by
  unfold Script.main
  simp only [hci, hcv, hg, hc, hr]

/-! ### Claims -/

/-- C1 counterexample: in the concrete environment `env0`,
MODEL_DEPLOYMENT_NAME is set to "my-deployment", yet the model field of the
submitted agent definition is not that value (it is the hard-coded literal
"gpt-4.1"). -/
theorem model_field_ignores_env_cx :
    env0.modelDeploymentName = some "my-deployment" ∧
    (agentDefinition env0).model ≠ "my-deployment" :=
  ⟨rfl, by decide⟩

/-- C1 (amended): the model field of the submitted PromptAgentDefinition is
the fixed literal "gpt-4.1" in every environment; the value read for
MODEL_DEPLOYMENT_NAME has no influence on it. -/
theorem model_field_is_gpt41 (env : Env) :
    (agentDefinition env).model = "gpt-4.1" := rfl

/-- C2 counterexample: when agent creation succeeds and the
conversation-creation call raises, the exception is handled by the inner
handler, not the outermost one: the outer handler's error line is absent
from standard output, the inner warning appears instead, and `main` returns
the agent rather than `None`. -/
theorem smoke_failure_not_outermost_cx :
    bConvFail.conversationsCreate = Except.error "boom" ∧
    (Script.main env0 bConvFail).ret = some agent0 ∧
    error_line "boom" ∉ (Script.main env0 bConvFail).output ∧
    test_fail_line "boom" ∈ (Script.main env0 bConvFail).output := by
  refine ⟨rfl, rfl, ?_, ?_⟩ <;> decide

/-- C2 (amended): every exception raised inside `main` is caught within
`main` and a message is printed, and no call is retried (each network call
appears at most once in the trace); creation-phase failures (client
construction or agent creation) are caught by the outermost handler, which
prints the error line plus the hint and returns `None`, while a smoke-test
failure raised at any of the three inner call sites (client fetch,
conversation creation, or message send) is caught by the inner handler,
which prints the warning, after which `main` still returns the agent. -/
theorem exceptions_caught_within_main (env : Env) (b : Behavior) :
    ((Script.main env b).trace.countP Event.isCreateAgent ≤ 1 ∧
     (Script.main env b).trace.countP Event.isCreateConversation ≤ 1 ∧
     (Script.main env b).trace.countP Event.isSendMessage ≤ 1) ∧
    (∀ e, b.clientInit env.projectEndpoint = Except.error e →
        (Script.main env b).output = [error_line e, az_login_hint] ∧
        (Script.main env b).ret = none) ∧
    (∀ e, b.clientInit env.projectEndpoint = Except.ok () →
        b.createVersion (agentArgs env) = Except.error e →
        (Script.main env b).output = [error_line e, az_login_hint] ∧
        (Script.main env b).ret = none) ∧
    (∀ ag te, b.clientInit env.projectEndpoint = Except.ok () →
        b.createVersion (agentArgs env) = Except.ok ag →
        (b.getOpenAIClient = Except.error te ∨
         (b.getOpenAIClient = Except.ok () ∧
           b.conversationsCreate = Except.error te) ∨
         (b.getOpenAIClient = Except.ok () ∧
           ∃ c, b.conversationsCreate = Except.ok c ∧
             b.responsesCreate c.id testInput ag.name = Except.error te)) →
        test_fail_line te ∈ (Script.main env b).output ∧
        (Script.main env b).ret = some ag) := by
  refine ⟨?_, ?_, ?_, ?_⟩
  · rcases hci : b.clientInit env.projectEndpoint with e | u
    · rw [main_clientInit_error env b e hci]; simp
    · rcases hcv : b.createVersion (agentArgs env) with e | ag
      · rw [main_createVersion_error env b e hci hcv]
        simp [Event.isCreateAgent, Event.isCreateConversation, Event.isSendMessage]
      · rcases hg : b.getOpenAIClient with te | u2
        · rw [main_getClient_error env b ag te hci hcv hg]
          simp [Event.isCreateAgent, Event.isCreateConversation, Event.isSendMessage]
        · rcases hc : b.conversationsCreate with te | c
          · rw [main_conversation_error env b ag te hci hcv hg hc]
            simp [Event.isCreateAgent, Event.isCreateConversation, Event.isSendMessage]
          · rcases hr : b.responsesCreate c.id testInput ag.name with te | r
            · rw [main_response_error env b ag c te hci hcv hg hc hr]
              simp [Event.isCreateAgent, Event.isCreateConversation, Event.isSendMessage]
            · rw [main_success env b ag c r hci hcv hg hc hr]
              simp [Event.isCreateAgent, Event.isCreateConversation, Event.isSendMessage]
  · intro e h
    rw [main_clientInit_error env b e h]
    exact ⟨rfl, rfl⟩
  · intro e hci hcv
    rw [main_createVersion_error env b e hci hcv]
    exact ⟨rfl, rfl⟩
  · intro ag te hci hcv hfail
    rcases hfail with hg | ⟨hg, hc⟩ | ⟨hg, c, hc, hr⟩
    · rw [main_getClient_error env b ag te hci hcv hg]
      exact ⟨by simp, rfl⟩
    · rw [main_conversation_error env b ag te hci hcv hg hc]
      exact ⟨by simp, rfl⟩
    · rw [main_response_error env b ag c te hci hcv hg hc hr]
      exact ⟨by simp, rfl⟩

/-- C2 witness: concrete instances of the outer-handler case and of two
different inner-handler failure sites of the amended claim. -/
theorem exceptions_caught_within_main_witness :
    ((Script.main env0 bCreateFail).output = [error_line "denied", az_login_hint] ∧
     (Script.main env0 bCreateFail).ret = none) ∧
    (test_fail_line "boom" ∈ (Script.main env0 bConvFail).output ∧
     (Script.main env0 bConvFail).ret = some agent0) ∧
    (test_fail_line "timeout" ∈ (Script.main env0 bRespFail).output ∧
     (Script.main env0 bRespFail).ret = some agent0) :=
  ⟨(exceptions_caught_within_main env0 bCreateFail).2.2.1 "denied" rfl rfl,
   (exceptions_caught_within_main env0 bConvFail).2.2.2 agent0 "boom" rfl rfl
     (Or.inr (Or.inl ⟨rfl, rfl⟩)),
   (exceptions_caught_within_main env0 bRespFail).2.2.2 agent0 "timeout" rfl rfl
     (Or.inr (Or.inr ⟨rfl, conv0, rfl, rfl⟩))⟩

/-- C3: if agent creation succeeds and any smoke-test call (client fetch,
conversation creation, or message send) raises, `main` prints the warning
carrying the exception text, swallows it, and still returns the created
agent. -/
theorem smoke_failure_swallowed_returns_agent (env : Env) (b : Behavior)
    (ag : Agent) (te : String)
    (hci : b.clientInit env.projectEndpoint = Except.ok ())
    (hcv : b.createVersion (agentArgs env) = Except.ok ag)
    (hfail : b.getOpenAIClient = Except.error te ∨
      (b.getOpenAIClient = Except.ok () ∧ b.conversationsCreate = Except.error te) ∨
      (b.getOpenAIClient = Except.ok () ∧
        ∃ c, b.conversationsCreate = Except.ok c ∧
          b.responsesCreate c.id testInput ag.name = Except.error te)) :
    (Script.main env b).ret = some ag ∧
    test_fail_line te ∈ (Script.main env b).output := by
  rcases hfail with hg | ⟨hg, hc⟩ | ⟨hg, c, hc, hr⟩
  · rw [main_getClient_error env b ag te hci hcv hg]
    exact ⟨rfl, by simp⟩
  · rw [main_conversation_error env b ag te hci hcv hg hc]
    exact ⟨rfl, by simp⟩
  · rw [main_response_error env b ag c te hci hcv hg hc hr]
    exact ⟨rfl, by simp⟩

/-- C3 witness: with the conversation call raising "boom", the agent is
still returned and the warning is printed. -/
theorem smoke_failure_swallowed_returns_agent_witness :
    (Script.main env0 bConvFail).ret = some agent0 ∧
    test_fail_line "boom" ∈ (Script.main env0 bConvFail).output :=
  smoke_failure_swallowed_returns_agent env0 bConvFail agent0 "boom" rfl rfl
    (Or.inr (Or.inl ⟨rfl, rfl⟩))

/-- C4: the submitted definition carries exactly two tool descriptors, the
machine-data one first and the machine-wiki one second, each naming a
label, a remote URL, an approval policy and a connection identifier; the
wiki URL is the interpolated search-endpoint string. -/
theorem tools_are_machine_data_then_wiki (env : Env) :
    (agentDefinition env).tools =
      [ { server_label := "machine-data"
          server_url := env.machineMcpServerEndpoint
          require_approval := "never"
          project_connection_id := "machine-data-connection" },
        { server_label := "machine-wiki"
          server_url := some (machine_wiki_mcp_endpoint env)
          require_approval := "never"
          project_connection_id := "machine-wiki-connection" } ] ∧
    (agentDefinition env).tools.length = 2 ∧
    machine_wiki_mcp_endpoint env =
      pyStr env.searchServiceEndpoint
        ++ "knowledgebases/machine-kb/mcp?api-version=2025-11-01-preview" := by
  refine ⟨rfl, rfl, ?_⟩
  rw [machine_wiki_mcp_endpoint, knowledge_base_name, String.append_assoc,
      String.append_assoc]
  congr 1

/-- C5: the network calls are issued in a fixed sequential order: any
nonempty trace begins with the create-agent call; a conversation is only
ever created after agent creation has succeeded; and a message is only sent
after agent and conversation both exist. -/
theorem create_agent_before_conversation (env : Env) (b : Behavior) :
    ((Script.main env b).trace ≠ [] →
      (Script.main env b).trace.head? = some (Event.createAgent (agentArgs env))) ∧
    (Event.createConversation ∈ (Script.main env b).trace →
      ∃ ag, b.createVersion (agentArgs env) = Except.ok ag ∧
        (Script.main env b).trace.take 2 =
          [Event.createAgent (agentArgs env), Event.createConversation]) ∧
    (∀ cid inp nm, Event.sendMessage cid inp nm ∈ (Script.main env b).trace →
      ∃ ag c, b.createVersion (agentArgs env) = Except.ok ag ∧
        b.conversationsCreate = Except.ok c ∧
        (Script.main env b).trace =
          [Event.createAgent (agentArgs env), Event.createConversation,
           Event.sendMessage c.id testInput ag.name]) := by
  rcases hci : b.clientInit env.projectEndpoint with e | u
  · rw [main_clientInit_error env b e hci]
    refine ⟨fun h => absurd rfl h, ?_, ?_⟩ <;> simp
  · rcases hcv : b.createVersion (agentArgs env) with e | ag
    · rw [main_createVersion_error env b e hci hcv]
      refine ⟨fun _ => rfl, ?_, ?_⟩ <;> simp
    · rcases hg : b.getOpenAIClient with te | u2
      · rw [main_getClient_error env b ag te hci hcv hg]
        refine ⟨fun _ => rfl, ?_, ?_⟩ <;> simp
      · rcases hc : b.conversationsCreate with te | c
        · rw [main_conversation_error env b ag te hci hcv hg hc]
          refine ⟨fun _ => rfl, fun _ => ⟨ag, rfl, rfl⟩, ?_⟩
          simp
        · rcases hr : b.responsesCreate c.id testInput ag.name with te | r
          · rw [main_response_error env b ag c te hci hcv hg hc hr]
            exact ⟨fun _ => rfl, fun _ => ⟨ag, rfl, rfl⟩,
              fun cid inp nm _ => ⟨ag, c, rfl, rfl, rfl⟩⟩
          · rw [main_success env b ag c r hci hcv hg hc hr]
            exact ⟨fun _ => rfl, fun _ => ⟨ag, rfl, rfl⟩,
              fun cid inp nm _ => ⟨ag, c, rfl, rfl, rfl⟩⟩

/-- C5 witness: in the all-success run, the trace starts with the
create-agent call and the conversation follows it. -/
theorem create_agent_before_conversation_witness :
    (Script.main env0 bOk).trace.head? = some (Event.createAgent (agentArgs env0)) ∧
    (Script.main env0 bOk).trace.take 2 =
      [Event.createAgent (agentArgs env0), Event.createConversation] := by
  have h := create_agent_before_conversation env0 bOk
  refine ⟨h.1 (by decide), ?_⟩
  obtain ⟨ag, -, h2⟩ := h.2.1 (by decide)
  exact h2

/-- C6 counterexample: a run in which agent creation succeeds but the
conversation-creation call raises: no message is ever sent (its count is
zero, not one), refuting "exactly one input message is sent" for every run
with successful agent creation. -/
theorem no_message_when_conversation_fails_cx :
    bConvFail.createVersion (agentArgs env0) = Except.ok agent0 ∧
    (Script.main env0 bConvFail).trace.countP Event.isSendMessage = 0 := by
  exact ⟨rfl, by decide⟩

/-- C6 (amended): when agent creation succeeds, at most one conversation is
created and at most one message is sent — never a second of either — and
when the smoke-test calls themselves succeed, exactly one conversation and
exactly one message are issued. -/
theorem at_most_one_conversation_and_message (env : Env) (b : Behavior)
    (ag : Agent)
    (hci : b.clientInit env.projectEndpoint = Except.ok ())
    (hcv : b.createVersion (agentArgs env) = Except.ok ag) :
    ((Script.main env b).trace.countP Event.isCreateConversation ≤ 1 ∧
     (Script.main env b).trace.countP Event.isSendMessage ≤ 1) ∧
    (∀ c, b.getOpenAIClient = Except.ok () →
      b.conversationsCreate = Except.ok c →
      (Script.main env b).trace.countP Event.isCreateConversation = 1 ∧
      (Script.main env b).trace.countP Event.isSendMessage = 1) := by
  constructor
  · rcases hg : b.getOpenAIClient with te | u2
    · rw [main_getClient_error env b ag te hci hcv hg]
      simp [Event.isCreateConversation, Event.isSendMessage]
    · rcases hc : b.conversationsCreate with te | c
      · rw [main_conversation_error env b ag te hci hcv hg hc]
        simp [Event.isCreateConversation, Event.isSendMessage]
      · rcases hr : b.responsesCreate c.id testInput ag.name with te | r
        · rw [main_response_error env b ag c te hci hcv hg hc hr]
          simp [Event.isCreateConversation, Event.isSendMessage,
                Event.isCreateAgent]
        · rw [main_success env b ag c r hci hcv hg hc hr]
          simp [Event.isCreateConversation, Event.isSendMessage,
                Event.isCreateAgent]
  · intro c hg hc
    rcases hr : b.responsesCreate c.id testInput ag.name with te | r
    · rw [main_response_error env b ag c te hci hcv hg hc hr]
      simp [Event.isCreateConversation, Event.isSendMessage,
            Event.isCreateAgent]
    · rw [main_success env b ag c r hci hcv hg hc hr]
      simp [Event.isCreateConversation, Event.isSendMessage,
            Event.isCreateAgent]

/-- C6 witness: in the all-success run there is exactly one conversation
and one message. -/
theorem at_most_one_conversation_and_message_witness :
    (Script.main env0 bOk).trace.countP Event.isCreateConversation = 1 ∧
    (Script.main env0 bOk).trace.countP Event.isSendMessage = 1 :=
  (at_most_one_conversation_and_message env0 bOk agent0 rfl rfl).2 conv0 rfl rfl

/-- C7: environment values are interpolated without local parsing or
validation: with SEARCH_SERVICE_ENDPOINT unset (`None`), the machine-wiki
URL is still built, equals the interpolation of the text "None" with the
fixed suffix, and hence begins with the text "None". -/
theorem wiki_url_interpolates_unset_env (env : Env)
    (h : env.searchServiceEndpoint = none) :
    machine_wiki_mcp_endpoint env =
      "None" ++ "knowledgebases/machine-kb/mcp?api-version=2025-11-01-preview" ∧
    (∃ rest, machine_wiki_mcp_endpoint env = "None" ++ rest) := by
  have h1 : machine_wiki_mcp_endpoint env =
      "Noneknowledgebases/machine-kb/mcp?api-version=2025-11-01-preview" := by
    rw [machine_wiki_mcp_endpoint, h]
    rfl
  rw [h1]
  exact ⟨rfl, ⟨"knowledgebases/machine-kb/mcp?api-version=2025-11-01-preview", rfl⟩⟩

/-- C7 witness: the unset-search-endpoint environment instantiates the
claim. -/
theorem wiki_url_interpolates_unset_env_witness :
    machine_wiki_mcp_endpoint envNoSearch =
      "None" ++ "knowledgebases/machine-kb/mcp?api-version=2025-11-01-preview" ∧
    (∃ rest, machine_wiki_mcp_endpoint envNoSearch = "None" ++ rest) :=
  wiki_url_interpolates_unset_env envNoSearch rfl

/-- C8: the agent's response text is printed verbatim and never inspected:
on the successful path, standard output consists of the two fixed lines
followed by the fixed prefix concatenated with the raw `output_text`, and
the trace and return value do not depend on the response at all (the
response `r` is universally quantified and occurs in the conclusion only
inside that verbatim concatenation). -/
theorem response_printed_verbatim (env : Env) (b : Behavior) (ag : Agent)
    (c : Conversation) (r : Response)
    (hci : b.clientInit env.projectEndpoint = Except.ok ())
    (hcv : b.createVersion (agentArgs env) = Except.ok ag)
    (hg : b.getOpenAIClient = Except.ok ())
    (hc : b.conversationsCreate = Except.ok c)
    (hr : b.responsesCreate c.id testInput ag.name = Except.ok r) :
    (Script.main env b).output =
      [created_line ag.id, test_banner, "✅ Agent response: " ++ r.output_text] ∧
    (Script.main env b).ret = some ag ∧
    (Script.main env b).trace =
      [Event.createAgent (agentArgs env), Event.createConversation,
       Event.sendMessage c.id testInput ag.name] := by
  rw [main_success env b ag c r hci hcv hg hc hr]
  exact ⟨rfl, rfl, rfl⟩

/-- C8 witness: the all-success run prints the concrete response text
verbatim. -/
theorem response_printed_verbatim_witness :
    (Script.main env0 bOk).output =
      [created_line agent0.id, test_banner,
       "✅ Agent response: " ++ resp0.output_text] ∧
    (Script.main env0 bOk).ret = some agent0 ∧
    (Script.main env0 bOk).trace =
      [Event.createAgent (agentArgs env0), Event.createConversation,
       Event.sendMessage conv0.id testInput agent0.name] :=
  response_printed_verbatim env0 bOk agent0 conv0 resp0 rfl rfl rfl rfl rfl

/-- C9: APIM_SUBSCRIPTION_KEY has no effect on behaviour: two environments
that agree on the four other variables (and hence may differ arbitrarily in
the subscription key) produce, against any remote behavior, identical runs
of `main` — the same issued requests, the same printed output and the same
return value. -/
theorem apim_key_no_influence (e1 e2 : Env) (b : Behavior)
    (h1 : e1.projectEndpoint = e2.projectEndpoint)
    (_h2 : e1.modelDeploymentName = e2.modelDeploymentName)
    (h3 : e1.searchServiceEndpoint = e2.searchServiceEndpoint)
    (h4 : e1.machineMcpServerEndpoint = e2.machineMcpServerEndpoint) :
    Script.main e1 b = Script.main e2 b := by
  have hargs : agentArgs e1 = agentArgs e2 := by
    simp [agentArgs, agentDefinition, machine_wiki_mcp_endpoint,
          machine_data_mcp_endpoint, h3, h4]
  unfold Script.main
  rw [h1, hargs]

/-- C9 witness: two concrete environments differing only in the
subscription key yield identical runs. -/
theorem apim_key_no_influence_witness :
    Script.main env0 bOk = Script.main envKeyB bOk ∧
    env0.apimSubscriptionKey ≠ envKeyB.apimSubscriptionKey :=
  ⟨apim_key_no_influence env0 envKeyB bOk rfl rfl rfl rfl, by decide⟩

/-- C10: the return value of `main` discriminates the outcome: whenever
agent creation succeeds, the created agent object is returned (whatever the
smoke test does), and whenever the creation phase raises (client
construction or the create-version call), `None` is returned. -/
theorem return_value_discriminates_outcome (env : Env) (b : Behavior) :
    (∀ ag, b.clientInit env.projectEndpoint = Except.ok () →
       b.createVersion (agentArgs env) = Except.ok ag →
       (Script.main env b).ret = some ag) ∧
    (∀ e, b.clientInit env.projectEndpoint = Except.error e →
       (Script.main env b).ret = none) ∧
    (∀ e, b.clientInit env.projectEndpoint = Except.ok () →
       b.createVersion (agentArgs env) = Except.error e →
       (Script.main env b).ret = none) := by
  refine ⟨?_, ?_, ?_⟩
  · intro ag hci hcv
    rcases hg : b.getOpenAIClient with te | u2
    · rw [main_getClient_error env b ag te hci hcv hg]
    · rcases hc : b.conversationsCreate with te | c
      · rw [main_conversation_error env b ag te hci hcv hg hc]
      · rcases hr : b.responsesCreate c.id testInput ag.name with te | r
        · rw [main_response_error env b ag c te hci hcv hg hc hr]
        · rw [main_success env b ag c r hci hcv hg hc hr]
  · intro e h
    rw [main_clientInit_error env b e h]
  · intro e hci hcv
    rw [main_createVersion_error env b e hci hcv]

/-- C10 witness: concrete runs exhibiting both outcomes. -/
theorem return_value_discriminates_outcome_witness :
    (Script.main env0 bOk).ret = some agent0 ∧
    (Script.main env0 bCreateFail).ret = none :=
  ⟨(return_value_discriminates_outcome env0 bOk).1 agent0 rfl rfl,
   (return_value_discriminates_outcome env0 bCreateFail).2.2 "denied" rfl rfl⟩
